import Mathlib

/-
Shallow embedding of the `mailer` TypeScript repository: a thin
abstraction over two email delivery providers (an SMTP relay driven by
nodemailer and the SendGrid HTTP API) with priority-ordered failover and
simple HTML templating.

Sources embedded here:
  * src/src/types/email.types.ts       — the EmailResult data model;
  * src/unnamed/part_001               — NodemailerProvider and
    SendGridProvider (metrics, initialize, sendEmail, verifyConnection,
    getHealthStatus);
  * src/src/SimpleFactory.ts           — SimpleEmailService (initialize,
    sendEmail failover loop, sendTemplateEmail, getProviders).

External collaborators (the SMTP transport, the SendGrid HTTP client, the
filesystem, the clock and the Handlebars renderer) are passed in as
explicit parameters describing their outcome for the one call under
study; a raised JavaScript error is an `Except.error` carrying the error
message.  The identifier `initialize` itself is avoided in the embedding;
the corresponding definitions are named `initProvider` / `initService`
and each carries a comment naming the source method it embeds.
-/

namespace Mailer

/-! ## Data model — src/src/types/email.types.ts -/

/-- `EmailResult` of email.types.ts (lines 33-42).  `retryCount` and
`deliveryStatus` are never written by the code under study and are
omitted.  Optional string fields are `Option String`. -/
structure EmailResult where
  success : Bool
  messageId : Option String := none
  response : Option String := none
  error : Option String := none
  duration : Nat
  provider : String
deriving DecidableEq

/-- JavaScript truthiness of an optional string: `undefined` and the empty
string are falsy. -/
def truthyStr : Option String → Bool
  | none => false
  | some s => s != ""

/-- The JavaScript expression `o || d` for an optional string `o`. -/
def jsOrString (o : Option String) (d : String) : String :=
  match o with
  | some s => if s != "" then s else d
  | none => d

/-! ## Provider metrics — part_001 lines 14-22 and 226-234

Both providers hold the same private `metrics` object.  Timestamps
(`new Date()`) are modelled as a `Nat` clock value passed in by the
caller. -/

structure ProviderMetrics where
  sentToday : Nat
  sentThisHour : Nat
  errorCount : Nat
  successCount : Nat
  totalResponseTime : Nat
  lastSuccessfulSend : Nat
  lastError : String
deriving DecidableEq

/-- The metrics object as both provider constructors build it at clock
time `now` (`lastSuccessfulSend: new Date()`, counters zero). -/
def initialMetrics (now : Nat) : ProviderMetrics :=
  { sentToday := 0, sentThisHour := 0, errorCount := 0, successCount := 0,
    totalResponseTime := 0, lastSuccessfulSend := now, lastError := "" }

/-- `successRate` as computed by both `getHealthStatus` implementations
(part_001 lines 141-143 and 398-400): percentage of successes among
recorded attempts, `0` when nothing was recorded. -/
def successRateOf (m : ProviderMetrics) : ℚ :=
  if m.successCount + m.errorCount > 0 then
    ((m.successCount : ℚ) / ((m.successCount : ℚ) + (m.errorCount : ℚ))) * 100
  else 0

/-- `averageResponseTime` as computed by both `getHealthStatus`
implementations (part_001 lines 145-147 and 402-404). -/
def averageResponseTimeOf (m : ProviderMetrics) : ℚ :=
  if m.successCount > 0 then (m.totalResponseTime : ℚ) / (m.successCount : ℚ)
  else 0

/-- `ProviderHealthStatus` of IMailProvider.ts, flattened (the nested
`metrics` sub-object becomes the three trailing fields). -/
structure ProviderHealthStatus where
  isHealthy : Bool
  lastSuccessfulSend : Nat
  lastError : String
  errorCount : Nat
  successRate : ℚ
  averageResponseTime : ℚ
  sentToday : Nat
  sentThisHour : Nat
  queueSize : Nat
deriving DecidableEq

namespace NodemailerProvider

/-- `NodemailerProvider.updateMetrics` (part_001 lines 197-208).  On
success it bumps the success-side counters, accumulates the response
time and stamps `lastSuccessfulSend := now`; on failure it bumps
`errorCount` and stores `error || 'Unknown error'`. -/
def updateMetrics (success : Bool) (duration : Nat) (error : Option String)
    (now : Nat) (m : ProviderMetrics) : ProviderMetrics :=
  if success then
    { m with successCount := m.successCount + 1,
             sentToday := m.sentToday + 1,
             sentThisHour := m.sentThisHour + 1,
             totalResponseTime := m.totalResponseTime + duration,
             lastSuccessfulSend := now }
  else
    { m with errorCount := m.errorCount + 1,
             lastError := jsOrString error "Unknown error" }

end NodemailerProvider

namespace SendGridProvider

/-- `SendGridProvider.updateMetrics` (part_001 lines 439-450), textually
identical to the nodemailer one. -/
def updateMetrics (success : Bool) (duration : Nat) (error : Option String)
    (now : Nat) (m : ProviderMetrics) : ProviderMetrics :=
  if success then
    { m with successCount := m.successCount + 1,
             sentToday := m.sentToday + 1,
             sentThisHour := m.sentThisHour + 1,
             totalResponseTime := m.totalResponseTime + duration,
             lastSuccessfulSend := now }
  else
    { m with errorCount := m.errorCount + 1,
             lastError := jsOrString error "Unknown error" }

end SendGridProvider

/-! ## NodemailerProvider — part_001 lines 1-213 -/

/-- The connection configuration object `SimpleEmailService.initialize`
passes to `NodemailerProvider.initialize`: every field may be
`undefined`. -/
structure NodemailerConnConfig where
  host : Option String := none
  port : Option Nat := none
  secure : Option Bool := none
  user : Option String := none
  password : Option String := none
  «from» : Option String := none
deriving DecidableEq

/-- Mutable state of a `NodemailerProvider` instance: whether the pooled
`transporter` handle exists (the handle itself is an external
collaborator), the stored configuration and the metrics.  `name`,
`priority` and `rateLimit` are readonly class constants (lines 7-9). -/
structure NodemailerState where
  transporter : Bool := false
  config : Option NodemailerConnConfig := none
  metrics : ProviderMetrics
deriving DecidableEq

/-- What `transporter.sendMail` resolves with on success. -/
structure SentMessageInfo where
  messageId : String
  response : String
deriving DecidableEq

namespace NodemailerProvider

/-- `NodemailerProvider.initialize` (part_001 lines 28-49): stores the
configuration and creates the pooled transporter.  `createTransport`
performs no credential validation and the method never raises, whatever
fields are absent; the second component is the raised error, always
`none` here. -/
def initProvider (st : NodemailerState) (config : NodemailerConnConfig) :
    NodemailerState × Option String :=
  ({ st with config := some config, transporter := true }, none)

/-- `NodemailerProvider.sendEmail` (part_001 lines 51-99).  `outcome` is
what the external `transporter.sendMail` does for this message (resolve
with info, or reject with an error message); `duration` is the elapsed
`Date.now() - startTime` and `now` the clock at metric-update time.
The guard `if (!this.transporter) throw` stands BEFORE the try block, so
an uninitialized provider raises (`Except.error`); inside the try every
transport rejection is caught and turned into a `success: false` result
(`info.messageId || ''` and `info.response || ''` are the identity in
this model, where an absent library string is already `""`). -/
def sendEmail (st : NodemailerState) (outcome : Except String SentMessageInfo)
    (duration now : Nat) : NodemailerState × Except String EmailResult :=
  if st.transporter = false then
    (st, Except.error "Nodemailer provider not initialized")
  else
    match outcome with
    | Except.ok info =>
        ({ st with metrics := updateMetrics true duration none now st.metrics },
         Except.ok { success := true, messageId := some info.messageId,
                     response := some info.response, duration := duration,
                     provider := "nodemailer" })
    | Except.error e =>
        ({ st with metrics := updateMetrics false duration (some e) now st.metrics },
         Except.ok { success := false, error := some e, duration := duration,
                     provider := "nodemailer" })

/-- `NodemailerProvider.verifyConnection` (part_001 lines 125-138):
`false` without a transporter, otherwise the outcome of the external
`transporter.verify()` handshake (a rejection is caught as `false`). -/
def verifyConnection (st : NodemailerState) (verifyOk : Bool) : Bool :=
  if st.transporter = false then false else verifyOk

/-- `NodemailerProvider.getHealthStatus` (part_001 lines 140-162).  It
awaits `this.verifyConnection()` inside the `isHealthy` expression; the
second component records that `verifyConnection` was invoked by this
call. -/
def getHealthStatus (st : NodemailerState) (verifyOk : Bool) :
    ProviderHealthStatus × Bool :=
  ({ isHealthy := verifyConnection st verifyOk
                    && decide (successRateOf st.metrics > 95),
     lastSuccessfulSend := st.metrics.lastSuccessfulSend,
     lastError := st.metrics.lastError,
     errorCount := st.metrics.errorCount,
     successRate := successRateOf st.metrics,
     averageResponseTime := averageResponseTimeOf st.metrics,
     sentToday := st.metrics.sentToday,
     sentThisHour := st.metrics.sentThisHour,
     queueSize := 0 }, true)

end NodemailerProvider

/-! ## SendGridProvider — part_001 lines 213-451 -/

/-- The connection configuration passed to `SendGridProvider.initialize`. -/
structure SendGridConnConfig where
  apiKey : Option String := none
  «from» : Option String := none
deriving DecidableEq

/-- Mutable state of a `SendGridProvider` instance. -/
structure SendGridState where
  isInitialized : Bool := false
  config : Option SendGridConnConfig := none
  metrics : ProviderMetrics
deriving DecidableEq

/-- What `sgMail.send` resolves with on success (first response of the
returned pair). -/
structure SendGridResponse where
  xMessageId : String
  statusCode : Nat
  body : String
deriving DecidableEq

namespace SendGridProvider

/-- `SendGridProvider.initialize` (part_001 lines 240-251): stores the
configuration, then raises `'SendGrid API key is required'` when
`config.apiKey` is falsy, otherwise sets the process-wide key and flags
the instance initialized.  Second component: the raised error. -/
def initProvider (st : SendGridState) (config : SendGridConnConfig) :
    SendGridState × Option String :=
  let st1 := { st with config := some config }
  if truthyStr config.apiKey then
    ({ st1 with isInitialized := true }, none)
  else
    (st1, some "SendGrid API key is required")

/-- `SendGridProvider.sendEmail` (part_001 lines 253-317).  The
`if (!this.isInitialized) throw` guard stands BEFORE the try block; a
rejection of the external `sgMail.send` is caught and becomes a
`success: false` result. -/
def sendEmail (st : SendGridState) (outcome : Except String SendGridResponse)
    (duration now : Nat) : SendGridState × Except String EmailResult :=
  if st.isInitialized = false then
    (st, Except.error "SendGrid provider not initialized")
  else
    match outcome with
    | Except.ok resp =>
        ({ st with metrics := updateMetrics true duration none now st.metrics },
         Except.ok { success := true, messageId := some resp.xMessageId,
                     response := some (toString resp.statusCode ++ ": " ++ resp.body),
                     duration := duration, provider := "sendgrid" })
    | Except.error e =>
        ({ st with metrics := updateMetrics false duration (some e) now st.metrics },
         Except.ok { success := false, error := some e, duration := duration,
                     provider := "sendgrid" })

/-- `SendGridProvider.verifyConnection` (part_001 lines 374-395): `false`
when not initialized, otherwise the outcome of sending a real test email
to the configured sender (a rejection is caught as `false`). -/
def verifyConnection (st : SendGridState) (selfSendOk : Bool) : Bool :=
  if st.isInitialized = false then false else selfSendOk

/-- `SendGridProvider.getHealthStatus` (part_001 lines 397-419).  Unlike
the nodemailer implementation it computes `isHealthy` from
`this.isInitialized` and does NOT invoke `verifyConnection`; the second
component (whether `verifyConnection` was invoked) is therefore
`false`. -/
def getHealthStatus (st : SendGridState) : ProviderHealthStatus × Bool :=
  ({ isHealthy := st.isInitialized && decide (successRateOf st.metrics > 95),
     lastSuccessfulSend := st.metrics.lastSuccessfulSend,
     lastError := st.metrics.lastError,
     errorCount := st.metrics.errorCount,
     successRate := successRateOf st.metrics,
     averageResponseTime := averageResponseTimeOf st.metrics,
     sentToday := st.metrics.sentToday,
     sentThisHour := st.metrics.sentThisHour,
     queueSize := 0 }, false)

end SendGridProvider

/-! ## SimpleEmailService — src/src/SimpleFactory.ts -/

/-- `SimpleEmailConfig.nodemailer` (SimpleFactory.ts lines 12-24): every
field optional. -/
structure NodemailerSettings where
  enabled : Option Bool := none
  priority : Option Int := none
  rateLimit : Option Nat := none
  maxRetries : Option Nat := none
  timeout : Option Nat := none
  host : Option String := none
  port : Option Nat := none
  secure : Option Bool := none
  user : Option String := none
  password : Option String := none
  «from» : Option String := none
deriving DecidableEq

/-- `SimpleEmailConfig.sendgrid` (SimpleFactory.ts lines 25-33). -/
structure SendGridSettings where
  enabled : Option Bool := none
  priority : Option Int := none
  rateLimit : Option Nat := none
  maxRetries : Option Nat := none
  timeout : Option Nat := none
  apiKey : Option String := none
  «from» : Option String := none
deriving DecidableEq

/-- `SimpleEmailConfig.templates` (SimpleFactory.ts lines 34-38). -/
structure TemplatesSettings where
  directory : Option String := none
  cacheEnabled : Option Bool := none
  cacheTTL : Option Nat := none
deriving DecidableEq

/-- `SimpleEmailConfig` (SimpleFactory.ts lines 10-39). -/
structure SimpleEmailConfig where
  serviceName : String
  nodemailer : Option NodemailerSettings := none
  sendgrid : Option SendGridSettings := none
  templates : Option TemplatesSettings := none
deriving DecidableEq

/-- The truthiness test `this.config.nodemailer?.enabled` (line 62). -/
def nmEnabled (cfg : SimpleEmailConfig) : Bool :=
  match cfg.nodemailer with
  | some s => s.enabled.getD false
  | none => false

/-- The truthiness test `this.config.sendgrid?.enabled` (line 88). -/
def sgEnabled (cfg : SimpleEmailConfig) : Bool :=
  match cfg.sendgrid with
  | some s => s.enabled.getD false
  | none => false

/-- Whether `SendGridProvider.initialize` succeeds for this
configuration: the api key it receives (line 92) is truthy. -/
def sgApiKeyOk (cfg : SimpleEmailConfig) : Bool :=
  match cfg.sendgrid with
  | some s => truthyStr s.apiKey
  | none => false

/-- The identity `IMailProvider` data the orchestrator reads from an
adapter: its readonly `name` and `priority`. -/
structure MailProviderRef where
  name : String
  priority : Int
deriving DecidableEq

/-- The `NodemailerProvider` class constants (part_001 lines 7-8). -/
def nodemailerRef : MailProviderRef := { name := "nodemailer", priority := 1 }

/-- The `SendGridProvider` class constants (part_001 lines 219-220). -/
def sendgridRef : MailProviderRef := { name := "sendgrid", priority := 2 }

/-- Outcomes of the two connection verifications attempted during
`SimpleEmailService.initialize` (external network behaviour). -/
structure InitEnv where
  nodemailerVerify : Bool
  sendgridVerify : Bool
deriving DecidableEq

/-- The adapters pushed onto `this.providers` by
`SimpleEmailService.initialize` (lines 62-107), in push order: the
nodemailer provider when enabled and its verification succeeds (its
`initialize` never raises, see `NodemailerProvider.initProvider`), then
the sendgrid provider when enabled, its `initialize` does not raise
(api key truthy) and its verification succeeds.  An adapter failing
either step is logged and skipped. -/
def survivors (cfg : SimpleEmailConfig) (env : InitEnv) : List MailProviderRef :=
  (if nmEnabled cfg && env.nodemailerVerify then [nodemailerRef] else [])
    ++ (if sgEnabled cfg && sgApiKeyOk cfg && env.sendgridVerify then [sendgridRef] else [])

/-- The sort key of the comparator on line 114,
`(b.priority || 1) - (a.priority || 1)`: a falsy (zero) priority counts
as `1`. -/
def priorityKey (p : MailProviderRef) : Int :=
  if p.priority = 0 then 1 else p.priority

/-- Stable insertion of `x` into a list already sorted by descending
`priorityKey`: `x` goes before the first element whose key is at most
`x`'s, i.e. after every strictly-greater key and before earlier-equal
keys it is folded onto. -/
def insertByPriority (x : MailProviderRef) : List MailProviderRef → List MailProviderRef
  | [] => [x]
  | y :: ys =>
      if priorityKey y ≤ priorityKey x then x :: y :: ys
      else y :: insertByPriority x ys

/-- `this.providers.sort((a, b) => (b.priority || 1) - (a.priority || 1))`
(line 114): JavaScript `Array.prototype.sort` is stable, and a stable
sort by a total preorder has exactly one result, here produced by
insertion sort. -/
def sortProviders (l : List MailProviderRef) : List MailProviderRef :=
  l.foldr insertByPriority []

/-- Mutable state of a `SimpleEmailService` instance (lines 44-48). -/
structure ServiceState where
  config : SimpleEmailConfig
  providers : List MailProviderRef := []
  initialized : Bool := false
deriving DecidableEq

/-- The `SimpleEmailService` constructor (lines 50-56). -/
def newService (cfg : SimpleEmailConfig) : ServiceState :=
  { config := cfg }

/-- `SimpleEmailService.initialize` (lines 58-118).  Returns the raised
error or the new state, paired with how many adapter constructors were
invoked.  Already initialized: immediate return, nothing constructed.
Otherwise each enabled provider kind is constructed and attempted; if
no adapter survives, `'No mail providers could be initialized'` is
raised; otherwise the pushed list is sorted by descending priority and
the service becomes initialized. -/
def initService (s : ServiceState) (env : InitEnv) :
    Except String ServiceState × Nat :=
  if s.initialized then (Except.ok s, 0)
  else
    let constructed :=
      (if nmEnabled s.config then 1 else 0) + (if sgEnabled s.config then 1 else 0)
    let pushed := s.providers ++ survivors s.config env
    if pushed = [] then
      (Except.error "No mail providers could be initialized", constructed)
    else
      (Except.ok { s with providers := sortProviders pushed, initialized := true },
       constructed)

/-- `SimpleEmailService.getProviders` (lines 182-184). -/
def getProviders (s : ServiceState) : List String :=
  s.providers.map (fun p => p.name)

/-- The synthetic result returned when every provider failed
(lines 138-143). -/
def allFailedResult : EmailResult :=
  { success := false, error := some "All mail providers failed",
    duration := 0, provider := "none" }

/-- The failover loop of `SimpleEmailService.sendEmail` (lines 126-143)
over the initialized provider list.  Each entry pairs the provider's
`name` with what its `sendEmail` does for this message: `Except.ok r`
when it returns result `r`, `Except.error e` when it raises.  The loop
returns the first `success` result; a `success: false` result or a
raised error falls through to the next provider.  Second component: the
names of the providers whose `sendEmail` was invoked, in order. -/
def sendEmailLoop : List (String × Except String EmailResult) → EmailResult × List String
  | [] => (allFailedResult, [])
  | (n, Except.ok r) :: rest =>
      if r.success then (r, [n])
      else
        let t := sendEmailLoop rest
        (t.1, n :: t.2)
  | (n, Except.error _) :: rest =>
      let t := sendEmailLoop rest
      (t.1, n :: t.2)

/-- Specification-side reading of one attempt: the claim's "adapter whose
result has success=true". -/
def attemptSucceeds : String × Except String EmailResult → Bool
  | (_, Except.ok r) => r.success
  | (_, Except.error _) => false

/-- Specification-side: index of the first adapter whose result has
`success = true`. -/
def firstSuccessIdx : List (String × Except String EmailResult) → Option Nat
  | [] => none
  | a :: rest =>
      if attemptSucceeds a then some 0
      else (firstSuccessIdx rest).map (fun i => i + 1)

/-- Specification-side: the returned result of an attempt, when it did
not raise. -/
def okResult : String × Except String EmailResult → Option EmailResult
  | (_, Except.ok r) => some r
  | (_, Except.error _) => none

/-- Specification-side description of the failover loop, written from
the claim: invoke adapters in list order up to and including the first
whose result has `success = true` and return that result; when no
adapter succeeds, every adapter is invoked and the synthetic all-failed
result is returned. -/
def sendEmailSpec (adapters : List (String × Except String EmailResult)) :
    EmailResult × List String :=
  match firstSuccessIdx adapters with
  | some i =>
      ((adapters[i]?.bind okResult).getD allFailedResult,
       (adapters.map Prod.fst).take (i + 1))
  | none => (allFailedResult, adapters.map Prod.fst)

/-! ## Template resolution — SimpleFactory.ts lines 146-180

The subject directive is extracted by the JavaScript regular expression
match `templateSource.match(/<!--\s*SUBJECT:\s*(.+?)\s*-->/i)`
(line 163).  The functions below implement exactly that pattern's
match semantics over a character list: leftmost match start; the two
`\s*` that precede a non-whitespace literal are deterministic maximal
munch (a whitespace character can never start `SUBJECT:` or `-->`); the
`\s*` before the lazy group backtracks from its longest munch; the group
`(.+?)` takes the shortest non-empty run of non-line-terminator
characters after which `\s*-->` matches. -/

/-- JavaScript `\s` on the ASCII range (space, tab, and the four ASCII
line/page separators; the Unicode space classes play no role here). -/
def jsWs (c : Char) : Bool :=
  (c = ' ') || (c = '\t') || (c = '\n') || (c = '\r') || (c = '\x0B') || (c = '\x0C')

/-- Maximal-munch `\s*`. -/
def dropWs : List Char → List Char
  | [] => []
  | c :: rest => if jsWs c then dropWs rest else c :: rest

/-- Whitespace trim on both ends of a character list (the trim
Handlebars applies to a placeholder name). -/
def trimChars (l : List Char) : List Char :=
  (dropWs (dropWs l).reverse).reverse

/-- Number of leading whitespace characters. -/
def leadingWsCount : List Char → Nat
  | [] => 0
  | c :: rest => if jsWs c then leadingWsCount rest + 1 else 0

/-- Case-insensitive literal match (the regex carries the `i` flag):
consumes `pat` (given lowercase) from `s`, returning the rest. -/
def stripLiteralCI (pat : List Char) (s : List Char) : Option (List Char) :=
  match pat, s with
  | [], t => some t
  | _ :: _, [] => none
  | p :: ps, c :: cs => if c.toLower = p then stripLiteralCI ps cs else none

/-- Whether `\s*-->` matches at the front of `s`. -/
def tailArrowMatches (s : List Char) : Bool :=
  List.isPrefixOf "-->".data (dropWs s)

/-- The lazy group `(.+?)` followed by `\s*-->`: shortest non-empty run
of characters other than `\n` and `\r` (JavaScript `.` excludes line
terminators) after which `\s*-->` matches. -/
def lazyCapture : List Char → Option (List Char)
  | [] => none
  | c :: rest =>
      if (c = '\n') || (c = '\r') then none
      else if tailArrowMatches rest then some [c]
      else
        match lazyCapture rest with
        | some cap => some (c :: cap)
        | none => none

/-- The greedy `\s*` standing before the lazy group: try its munches
from longest (`k` whitespace characters) down to zero, taking the first
that lets the rest of the pattern match. -/
def captureAfterWs : Nat → List Char → Option (List Char)
  | 0, s => lazyCapture s
  | k + 1, s =>
      match lazyCapture (s.drop (k + 1)) with
      | some cap => some cap
      | none => captureAfterWs k s

/-- Attempt the whole pattern at the current position. -/
def matchDirectiveAt (s : List Char) : Option (List Char) :=
  match stripLiteralCI "<!--".data s with
  | none => none
  | some r1 =>
      match stripLiteralCI "subject:".data (dropWs r1) with
      | none => none
      | some r3 => captureAfterWs (leadingWsCount r3) r3

/-- Leftmost match: try the pattern at each successive start position. -/
def findDirective : List Char → Option (List Char)
  | [] => none
  | c :: rest =>
      match matchDirectiveAt (c :: rest) with
      | some cap => some cap
      | none => findDirective rest

/-- The captured subject text of line 163's regex match, when the raw
template text holds a subject directive. -/
def extractSubject (src : String) : Option String :=
  (findDirective src.data).map (fun l => String.mk l)

/-- Modelled from the spec: the Handlebars renderer (an external library
required on line 156; spec section 4.3 delegates to "simple
variable-substitution templating semantics (double-brace placeholders)").
`readPlaceholder` reads a placeholder name up to the closing double
brace: for text beginning `}}` it closes with an empty name, otherwise
the head character joins the name read from the tail; text with no
closing `}}` is no placeholder. -/
def readPlaceholder : List Char → Option (List Char × List Char)
  | [] => none
  | c :: rest =>
      if c = '}' ∧ rest.head? = some '}' then some ([], rest.tail)
      else
        match readPlaceholder rest with
        | some (nm, rest2) => some (c :: nm, rest2)
        | none => none

/-- Modelled from the spec: placeholder lookup in the data map; a key
with no entry renders as the empty string. -/
def lookupVar (data : List (String × String)) (key : String) : String :=
  match data.find? (fun kv => kv.1 == key) with
  | some kv => kv.2
  | none => ""

/-- Modelled from the spec: render the template text against the data
map by substituting every `{{name}}` placeholder (name trimmed of
whitespace) with its looked-up value; a double brace with no closing
pair stays literal text.  The recursion is driven by a fuel counter
initialized to the text length: every step spends one fuel and strictly
shortens the remaining text (a substitution resumes after the closing
braces), so the fuel never runs out. -/
def renderCharsAux (data : List (String × String)) : Nat → List Char → List Char
  | 0, l => l
  | _ + 1, [] => []
  | fuel + 1, '{' :: '{' :: rest =>
      (match readPlaceholder rest with
       | some (nm, rest2) =>
           (lookupVar data (String.mk (trimChars nm))).data
             ++ renderCharsAux data fuel rest2
       | none => '{' :: '{' :: renderCharsAux data fuel rest)
  | fuel + 1, c :: rest => c :: renderCharsAux data fuel rest

/-- Modelled from the spec: the full substitution pass over a text. -/
def renderChars (data : List (String × String)) (l : List Char) : List Char :=
  renderCharsAux data l.length l

/-- Modelled from the spec: `handlebars.compile(src)(data)`. -/
def renderTemplate (data : List (String × String)) (src : String) : String :=
  String.mk (renderChars data src.data)

/-- The template-resolution steps inside the try block of
`sendTemplateEmail` (SimpleFactory.ts lines 158-164): the html is the
WHOLE raw template text rendered against the data map; the subject is
the rendered captured directive text when the raw text holds a subject
directive, and the fixed `'Email Notification'` otherwise. -/
def resolveTemplate (src : String) (data : List (String × String)) :
    String × String :=
  (match extractSubject src with
   | some t => renderTemplate data t
   | none => "Email Notification",
   renderTemplate data src)

/-- The template path of line 152:
`${this.config.templates?.directory || './templates'}/${templateName}.html`. -/
def templatePath (cfg : SimpleEmailConfig) (templateName : String) : String :=
  (let d := match cfg.templates with
            | some t => t.directory.getD ""
            | none => ""
   if d = "" then "./templates" else d) ++ "/" ++ templateName ++ ".html"

/-- `SimpleEmailService.sendTemplateEmail` (lines 146-180).
`fileSystem` is the external `fs.readFileSync` (`Except.error` = the
raised error's message); `adapters` pairs each initialized provider with
its `sendEmail` behaviour as in `sendEmailLoop`.  Returns the delivery
result, the names of the providers invoked, and the `(subject, html)`
pair merged into the message (none when resolution failed before any
send). -/
def sendTemplateEmail (cfg : SimpleEmailConfig)
    (fileSystem : String → Except String String)
    (templateName : String) (templateData : List (String × String))
    (adapters : List (String × Except String EmailResult)) :
    EmailResult × List String × Option (String × String) :=
  match fileSystem (templatePath cfg templateName) with
  | Except.error msg =>
      ({ success := false, error := some ("Template loading failed: " ++ msg),
         duration := 0, provider := "template-loader" }, [], none)
  | Except.ok src =>
      let rendered := resolveTemplate src templateData
      let sent := sendEmailLoop adapters
      (sent.1, sent.2, some rendered)

/-! ## Concrete fixtures for witnesses -/

/-- A configuration with both providers enabled and an api key set. -/
def cfgBoth : SimpleEmailConfig :=
  { serviceName := "svc",
    nodemailer := some { enabled := some true, priority := some 1,
                         host := some "smtp.example.com", port := some 587,
                         user := some "u", password := some "p" },
    sendgrid := some { enabled := some true, priority := some 2,
                       apiKey := some "SG.key" } }

/-- Both connection verifications succeed. -/
def envBoth : InitEnv := { nodemailerVerify := true, sendgridVerify := true }

/-- The service state `initialize` produces from `cfgBoth` under
`envBoth`. -/
def readyBoth : ServiceState :=
  { config := cfgBoth, providers := [sendgridRef, nodemailerRef],
    initialized := true }

/-- Concrete states used by the health-status and credential claims. -/
def sgStateForC5 : SendGridState :=
  { isInitialized := true, config := some { apiKey := some "SG.key" },
    metrics := { initialMetrics 0 with successCount := 20 } }

/-- The template file of the C6 example: the subject directive line and
the body on the next line. -/
def adaTemplate : String := "<!-- SUBJECT: Hi {{name}} -->\n<p>{{name}}</p>"

/-- The data map of the C6 example. -/
def adaData : List (String × String) := [("name", "Ada")]

/-- A filesystem on which every read raises, as when no template file
exists. -/
def missingFileFs : String → Except String String :=
  fun p => Except.error ("ENOENT: no such file or directory, open " ++ p)

/-! ## Claim theorems -/

/-- C10: a failed send attempt leaves the success-side metrics
(`successCount`, `sentToday`, `sentThisHour`, `totalResponseTime`,
`lastSuccessfulSend`) unchanged and changes only `errorCount` (by one)
and `lastError` (to the error text, `'Unknown error'` when falsy); a
successful attempt leaves `errorCount` and `lastError` unchanged.  Both
providers' `updateMetrics` implementations are covered. -/
theorem claim_C10_updateMetrics_frame :
    ∀ (d now : Nat) (e : Option String) (m : ProviderMetrics),
      (NodemailerProvider.updateMetrics false d e now m).successCount = m.successCount
      ∧ (NodemailerProvider.updateMetrics false d e now m).sentToday = m.sentToday
      ∧ (NodemailerProvider.updateMetrics false d e now m).sentThisHour = m.sentThisHour
      ∧ (NodemailerProvider.updateMetrics false d e now m).totalResponseTime
          = m.totalResponseTime
      ∧ (NodemailerProvider.updateMetrics false d e now m).lastSuccessfulSend
          = m.lastSuccessfulSend
      ∧ (NodemailerProvider.updateMetrics false d e now m).errorCount = m.errorCount + 1
      ∧ (NodemailerProvider.updateMetrics false d e now m).lastError
          = jsOrString e "Unknown error"
      ∧ (NodemailerProvider.updateMetrics true d e now m).errorCount = m.errorCount
      ∧ (NodemailerProvider.updateMetrics true d e now m).lastError = m.lastError
      ∧ (SendGridProvider.updateMetrics false d e now m).successCount = m.successCount
      ∧ (SendGridProvider.updateMetrics false d e now m).sentToday = m.sentToday
      ∧ (SendGridProvider.updateMetrics false d e now m).sentThisHour = m.sentThisHour
      ∧ (SendGridProvider.updateMetrics false d e now m).totalResponseTime
          = m.totalResponseTime
      ∧ (SendGridProvider.updateMetrics false d e now m).lastSuccessfulSend
          = m.lastSuccessfulSend
      ∧ (SendGridProvider.updateMetrics false d e now m).errorCount = m.errorCount + 1
      ∧ (SendGridProvider.updateMetrics false d e now m).lastError
          = jsOrString e "Unknown error"
      ∧ (SendGridProvider.updateMetrics true d e now m).errorCount = m.errorCount
      ∧ (SendGridProvider.updateMetrics true d e now m).lastError = m.lastError :=
  fun _ _ _ _ =>
    ⟨rfl, rfl, rfl, rfl, rfl, rfl, rfl, rfl, rfl,
     rfl, rfl, rfl, rfl, rfl, rfl, rfl, rfl, rfl⟩

/-- C4 (counterexample): the claim says an adapter's `sendEmail` never
raises an uncaught error, but the `if (!this.transporter) throw` guard
stands before the try block: on a freshly constructed (uninitialized)
nodemailer provider, `sendEmail` raises `'Nodemailer provider not
initialized'` instead of returning a result. -/
theorem claim_C4_counterexample :
    (NodemailerProvider.sendEmail { metrics := initialMetrics 0 }
        (Except.error "Connection refused") 5 5).2
      = Except.error "Nodemailer provider not initialized"
    ∧ (SendGridProvider.sendEmail { metrics := initialMetrics 0 }
        (Except.error "Connection refused") 5 5).2
      = Except.error "SendGrid provider not initialized" :=
  ⟨rfl, rfl⟩

/-- C4 (amended): for every INITIALIZED adapter and every message, the
adapter's `sendEmail` never raises: it returns some `EmailResult`; on a
transport failure it returns `success = false` with the error text and
records the failure in the metrics (`errorCount` up by one, `lastError`
set); an adapter whose `initialize` has not run instead raises a
"not initialized" error (see the counterexample). -/
theorem claim_C4_sendEmail_never_raises_when_initialized :
    ∀ (stN : NodemailerState) (oN : Except String SentMessageInfo)
      (stS : SendGridState) (oS : Except String SendGridResponse) (d now : Nat),
      (stN.transporter = true →
        (∃ r, (NodemailerProvider.sendEmail stN oN d now).2 = Except.ok r)
        ∧ ∀ e, oN = Except.error e →
            (NodemailerProvider.sendEmail stN oN d now).2
              = Except.ok { success := false, error := some e, duration := d,
                            provider := "nodemailer" }
            ∧ (NodemailerProvider.sendEmail stN oN d now).1.metrics.errorCount
              = stN.metrics.errorCount + 1
            ∧ (NodemailerProvider.sendEmail stN oN d now).1.metrics.lastError
              = jsOrString (some e) "Unknown error")
      ∧ (stS.isInitialized = true →
        (∃ r, (SendGridProvider.sendEmail stS oS d now).2 = Except.ok r)
        ∧ ∀ e, oS = Except.error e →
            (SendGridProvider.sendEmail stS oS d now).2
              = Except.ok { success := false, error := some e, duration := d,
                            provider := "sendgrid" }
            ∧ (SendGridProvider.sendEmail stS oS d now).1.metrics.errorCount
              = stS.metrics.errorCount + 1
            ∧ (SendGridProvider.sendEmail stS oS d now).1.metrics.lastError
              = jsOrString (some e) "Unknown error") := by
  intro stN oN stS oS d now
  constructor
  · intro h
    constructor
    · cases oN with
      | ok info =>
          simp [NodemailerProvider.sendEmail, h]
      | error e =>
          simp [NodemailerProvider.sendEmail, h]
    · intro e he
      subst he
      refine ⟨by simp [NodemailerProvider.sendEmail, h], ?_, ?_⟩
      · simp [NodemailerProvider.sendEmail, h, NodemailerProvider.updateMetrics]
      · simp [NodemailerProvider.sendEmail, h, NodemailerProvider.updateMetrics]
  · intro h
    constructor
    · cases oS with
      | ok resp =>
          simp [SendGridProvider.sendEmail, h]
      | error e =>
          simp [SendGridProvider.sendEmail, h]
    · intro e he
      subst he
      refine ⟨by simp [SendGridProvider.sendEmail, h], ?_, ?_⟩
      · simp [SendGridProvider.sendEmail, h, SendGridProvider.updateMetrics]
      · simp [SendGridProvider.sendEmail, h, SendGridProvider.updateMetrics]

/-- C5 (counterexample): the claim says every adapter's
`getHealthStatus` re-invokes `verifyConnection` and reports healthy
exactly when the connectivity check passes and the success rate exceeds
95%.  The SendGrid implementation invokes no `verificationConnection`
at all (trace flag `false`) and, on an initialized instance whose
connectivity check fails (the verification self-send rejects) with a
100% success rate, still reports healthy. -/
theorem claim_C5_counterexample :
    (SendGridProvider.getHealthStatus sgStateForC5).2 = false
    ∧ (SendGridProvider.getHealthStatus sgStateForC5).1.isHealthy = true
    ∧ SendGridProvider.verifyConnection sgStateForC5 false = false := by
  refine ⟨rfl, ?_, rfl⟩
  show (sgStateForC5.isInitialized
          && decide (successRateOf sgStateForC5.metrics > 95)) = true
  rw [Bool.and_eq_true, decide_eq_true_iff]
  refine ⟨rfl, ?_⟩
  norm_num [successRateOf, sgStateForC5, initialMetrics]

/-- C5 (amended): the nodemailer adapter's `getHealthStatus` re-invokes
`verifyConnection` and its healthy flag is true exactly when that
connectivity check passes and the success rate among recorded attempts
exceeds 95%; the SendGrid adapter's `getHealthStatus` does NOT invoke
`verifyConnection`: its healthy flag is true exactly when the instance
is initialized and the success rate exceeds 95%. -/
theorem claim_C5_health_flag :
    ∀ (stN : NodemailerState) (v : Bool) (stS : SendGridState),
      (NodemailerProvider.getHealthStatus stN v).2 = true
      ∧ ((NodemailerProvider.getHealthStatus stN v).1.isHealthy = true
           ↔ NodemailerProvider.verifyConnection stN v = true
             ∧ successRateOf stN.metrics > 95)
      ∧ (SendGridProvider.getHealthStatus stS).2 = false
      ∧ ((SendGridProvider.getHealthStatus stS).1.isHealthy = true
           ↔ stS.isInitialized = true ∧ successRateOf stS.metrics > 95) := by
  intro stN v stS
  refine ⟨rfl, ?_, rfl, ?_⟩
  · simp [NodemailerProvider.getHealthStatus, Bool.and_eq_true, decide_eq_true_iff]
  · simp [SendGridProvider.getHealthStatus, Bool.and_eq_true, decide_eq_true_iff]

/-- C8 (counterexample): the claim says every adapter's `initialize`
fails with an initialization error when required credentials are
absent, but `NodemailerProvider.initialize` performs no credential
validation: with every connection field absent it raises nothing and
creates the transporter. -/
theorem claim_C8_counterexample :
    (NodemailerProvider.initProvider { metrics := initialMetrics 0 } {}).2 = none
    ∧ (NodemailerProvider.initProvider { metrics := initialMetrics 0 } {}).1.transporter
      = true :=
  ⟨rfl, rfl⟩

/-- C8 (amended): the SendGrid adapter's `initialize` raises
`'SendGrid API key is required'` exactly when the configured api key is
absent (falsy); the nodemailer adapter's `initialize` performs no
credential validation and completes without raising whatever the
configuration, missing credentials surfacing only later at connection
verification. -/
theorem claim_C8_init_credentials :
    ∀ (stS : SendGridState) (c : SendGridConnConfig)
      (stN : NodemailerState) (cN : NodemailerConnConfig),
      ((SendGridProvider.initProvider stS c).2
          = some "SendGrid API key is required"
        ↔ truthyStr c.apiKey = false)
      ∧ (NodemailerProvider.initProvider stN cN).2 = none
      ∧ (NodemailerProvider.initProvider stN cN).1.transporter = true := by
  intro stS c stN cN
  refine ⟨?_, rfl, rfl⟩
  cases hk : truthyStr c.apiKey <;>
    simp [SendGridProvider.initProvider, hk]

/-- C1: the failover loop invokes each adapter's `sendEmail` in list
order and returns the result of the first adapter whose result has
`success = true`, having invoked exactly the adapters up to and
including it; an adapter returning `success = false` or raising is
skipped; when every adapter fails or raises, every adapter was invoked
and the loop returns the synthetic failure result with provider
`"none"`, error `"All mail providers failed"` and duration `0`. -/
theorem claim_C1_sendEmail_failover :
    ∀ adapters : List (String × Except String EmailResult),
      sendEmailLoop adapters = sendEmailSpec adapters := by
  intro adapters
  induction adapters with
  | nil => rfl
  | cons a rest ih =>
      obtain ⟨n, b⟩ := a
      cases b with
      | ok r =>
          cases hs : r.success with
          | true =>
              simp [sendEmailLoop, sendEmailSpec, firstSuccessIdx,
                    attemptSucceeds, hs, okResult]
          | false =>
              cases hidx : firstSuccessIdx rest with
              | none =>
                  simp [sendEmailLoop, sendEmailSpec, firstSuccessIdx,
                        attemptSucceeds, hs, hidx, ih]
              | some i =>
                  simp [sendEmailLoop, sendEmailSpec, firstSuccessIdx,
                        attemptSucceeds, hs, hidx, ih]
      | error e =>
          cases hidx : firstSuccessIdx rest with
          | none =>
              simp [sendEmailLoop, sendEmailSpec, firstSuccessIdx,
                    attemptSucceeds, hidx, ih]
          | some i =>
              simp [sendEmailLoop, sendEmailSpec, firstSuccessIdx,
                    attemptSucceeds, hidx, ih]

/-- C2: after a successful `initialize` on a fresh service, the adapter
list is the stable descending-priority sort of the surviving adapters in
registration order: it is pairwise sorted by descending priority,
adapters of equal priority keep their registration order (the filter at
any one priority is unchanged), and `getProviders` returns exactly the
names in that order. -/
theorem filter_swap_ne (a b : MailProviderRef) (h : a.priority ≠ b.priority) :
    ∀ k : Int, List.filter (fun p => p.priority == k) [b, a]
      = List.filter (fun p => p.priority == k) [a, b] := by
  intro k
  by_cases ha : a.priority = k <;> by_cases hb : b.priority = k
  · exact absurd (ha.trans hb.symm) h
  all_goals simp [List.filter_cons, beq_iff_eq, ha, hb]

theorem claim_C2_providers_sorted :
    ∀ (cfg : SimpleEmailConfig) (env : InitEnv) (s2 : ServiceState),
      (initService (newService cfg) env).1 = Except.ok s2 →
      s2.providers = sortProviders (survivors cfg env)
      ∧ s2.providers.Pairwise (fun a b => b.priority ≤ a.priority)
      ∧ (∀ k : Int, s2.providers.filter (fun p => p.priority == k)
            = (survivors cfg env).filter (fun p => p.priority == k))
      ∧ getProviders s2 = (sortProviders (survivors cfg env)).map (fun p => p.name) := by
  intro cfg env s2 h
  rw [initService] at h
  simp only [newService] at h
  rw [if_neg (by simp)] at h
  simp only [List.nil_append] at h
  by_cases hemp : survivors cfg env = []
  · rw [if_pos (by simp [hemp])] at h
    exact absurd h (by simp)
  · rw [if_neg (by simpa using hemp)] at h
    obtain rfl : ({ config := cfg, providers := sortProviders (survivors cfg env),
                    initialized := true } : ServiceState) = s2 := by
      simpa using h
    refine ⟨rfl, ?_, ?_, rfl⟩
    · cases hnm : (nmEnabled cfg && env.nodemailerVerify) <;>
        cases hsg : (sgEnabled cfg && sgApiKeyOk cfg && env.sendgridVerify)
      · have hsurv : survivors cfg env = [] := by simp [survivors, hnm, hsg]
        simp [hsurv, sortProviders]
      · have hsurv : survivors cfg env = [sendgridRef] := by
          simp [survivors, hnm, hsg]
        simp [hsurv, sortProviders, insertByPriority]
      · have hsurv : survivors cfg env = [nodemailerRef] := by
          simp [survivors, hnm, hsg]
        simp [hsurv, sortProviders, insertByPriority]
      · have hsurv : survivors cfg env = [nodemailerRef, sendgridRef] := by
          simp [survivors, hnm, hsg]
        rw [hsurv, show sortProviders [nodemailerRef, sendgridRef]
              = [sendgridRef, nodemailerRef] from by decide]
        show List.Pairwise (fun a b => b.priority ≤ a.priority)
            [sendgridRef, nodemailerRef]
        decide
    · intro k
      cases hnm : (nmEnabled cfg && env.nodemailerVerify) <;>
        cases hsg : (sgEnabled cfg && sgApiKeyOk cfg && env.sendgridVerify)
      · have hsurv : survivors cfg env = [] := by simp [survivors, hnm, hsg]
        simp [hsurv, sortProviders]
      · have hsurv : survivors cfg env = [sendgridRef] := by
          simp [survivors, hnm, hsg]
        simp [hsurv, sortProviders, insertByPriority]
      · have hsurv : survivors cfg env = [nodemailerRef] := by
          simp [survivors, hnm, hsg]
        simp [hsurv, sortProviders, insertByPriority]
      · have hsurv : survivors cfg env = [nodemailerRef, sendgridRef] := by
          simp [survivors, hnm, hsg]
        rw [hsurv, show sortProviders [nodemailerRef, sendgridRef]
              = [sendgridRef, nodemailerRef] from by decide]
        exact filter_swap_ne nodemailerRef sendgridRef (by decide) k

/-- C3: on a fresh service, `initialize` raises the
no-providers-available error exactly when zero configured adapters
survive initialization plus connection verification; when at least one
survives, it completes without raising and the service is Ready
(`initialized = true`). -/
theorem claim_C3_no_providers_error :
    ∀ (cfg : SimpleEmailConfig) (env : InitEnv),
      ((initService (newService cfg) env).1
          = Except.error "No mail providers could be initialized"
        ↔ survivors cfg env = [])
      ∧ (survivors cfg env ≠ [] →
          ∃ s2, (initService (newService cfg) env).1 = Except.ok s2
                ∧ s2.initialized = true) := by
  intro cfg env
  rw [initService]
  simp only [newService]
  rw [if_neg (by simp)]
  simp only [List.nil_append]
  by_cases hemp : survivors cfg env = []
  · rw [if_pos (by simp [hemp])]
    simp [hemp]
  · rw [if_neg (by simpa using hemp)]
    simp [hemp]

/-- C9: `initialize` is idempotent: on an already-initialized service it
returns immediately, constructing no adapter and leaving the state (in
particular the adapter list) unchanged. -/
theorem claim_C9_idempotent :
    ∀ (s : ServiceState) (env : InitEnv),
      s.initialized = true → initService s env = (Except.ok s, 0) := by
  intro s env h
  rw [initService, if_pos h]

/-- C2 witness: from the configuration enabling both providers, with
both verifications succeeding, the provider names come out sendgrid
(priority 2) first, nodemailer (priority 1) second. -/
theorem claim_C2_witness :
    getProviders readyBoth = ["sendgrid", "nodemailer"] := by
  have h := claim_C2_providers_sorted cfgBoth envBoth readyBoth rfl
  rw [h.2.2.2]
  rfl

/-- C9 witness: a second `initialize` on the Ready state `readyBoth` is
a no-op constructing nothing. -/
theorem claim_C9_witness :
    initService readyBoth envBoth = (Except.ok readyBoth, 0) :=
  claim_C9_idempotent readyBoth envBoth rfl

/-- C6 (counterexample): on the example template the rendered subject is
`"Hi Ada"`, but the produced html is not the bare `<p>Ada</p>`: line 160
renders the WHOLE raw file, so the rendered subject-directive comment
stays in the html. -/
theorem claim_C6_counterexample :
    (resolveTemplate adaTemplate adaData).1 = "Hi Ada"
    ∧ (resolveTemplate adaTemplate adaData).2 ≠ "<p>Ada</p>" := by
  constructor
  · decide
  · decide

/-- C6 (amended): rendering the example template with `{name: "Ada"}`
yields subject `"Hi Ada"` and html equal to the whole file rendered,
`"<!-- SUBJECT: Hi Ada -->\n<p>Ada</p>"` (the directive comment is not
stripped, the body line is `<p>Ada</p>`); for a template with no
subject directive the subject used is the fixed default
`"Email Notification"`. -/
theorem claim_C6_template_rendering :
    (resolveTemplate adaTemplate adaData).1 = "Hi Ada"
    ∧ (resolveTemplate adaTemplate adaData).2
        = "<!-- SUBJECT: Hi Ada -->\n<p>Ada</p>"
    ∧ (∀ (src : String) (data : List (String × String)),
        extractSubject src = none →
        (resolveTemplate src data).1 = "Email Notification") := by
  refine ⟨by decide, by decide, ?_⟩
  intro src data h
  simp [resolveTemplate, h]

/-- C7: whenever template resolution fails (the filesystem read of the
template path raises), `sendTemplateEmail` returns a failure result
naming provider `"template-loader"`, invokes no adapter's `sendEmail`
(the invoked list is empty) and composes no message. -/
theorem claim_C7_template_failure_no_adapter :
    ∀ (cfg : SimpleEmailConfig) (fileSystem : String → Except String String)
      (tn : String) (data : List (String × String))
      (adapters : List (String × Except String EmailResult)) (msg : String),
      fileSystem (templatePath cfg tn) = Except.error msg →
      sendTemplateEmail cfg fileSystem tn data adapters
        = ({ success := false, error := some ("Template loading failed: " ++ msg),
             duration := 0, provider := "template-loader" }, [], none) := by
  intro cfg fileSystem tn data adapters msg h
  simp [sendTemplateEmail, h]

/-- C7 witness: with no `welcome.html` on disk, `sendTemplateEmail`
returns the template-loader failure, invoking no adapter even though a
succeeding adapter is configured. -/
theorem claim_C7_witness :
    sendTemplateEmail cfgBoth missingFileFs "welcome" []
        [("sendgrid", Except.ok { success := true, duration := 3,
                                  provider := "sendgrid" })]
      = ({ success := false,
           error := some ("Template loading failed: "
             ++ "ENOENT: no such file or directory, open ./templates/welcome.html"),
           duration := 0, provider := "template-loader" }, [], none) :=
  claim_C7_template_failure_no_adapter cfgBoth missingFileFs "welcome" []
    [("sendgrid", Except.ok { success := true, duration := 3,
                              provider := "sendgrid" })]
    "ENOENT: no such file or directory, open ./templates/welcome.html" rfl

end Mailer
